import Mathlib

/-!
Verification of the Analysis Orchestration & Fallback Engine of the
SIH_agri repository (`src/flask_server/app.py`).

The Python source is shallowly embedded: strings are modelled as Lean
`String` / `List Char`, the regex patterns of `get_ai_response` are
modelled by explicit scanners that reproduce `re.search` semantics on
those concrete patterns (leftmost match; `\s*` is effectively
maximal-munch in each of these patterns because the character that must
follow the whitespace — `=` or a word character — is never itself a
whitespace character, so no backtracking into `\s*` can succeed), and
Python float literals 1.2, 0.9, 0.6, 1.1, 0.8, 0.5 are modelled as exact
rationals (for every combination of multipliers the rounded float product
and the exact rational product truncate to the same integer).
-/

/-- ASCII model of Python `str.lower` on a single character. -/
def pyLower (c : Char) : Char :=
  if 'A' ≤ c ∧ c ≤ 'Z' then Char.ofNat (c.toNat + 32) else c

/-- Python `str.lower` over a character list (ASCII model). -/
def lowerStr (s : List Char) : List Char := s.map pyLower

/-- Python regex `\s` class (ASCII model). -/
def isPySpace (c : Char) : Bool :=
  c = ' ' || c = '\t' || c = '\n' || c = '\r' || c = '\x0b' || c = '\x0c'

/-- Python regex `\w` class (ASCII model). -/
def isPyWord (c : Char) : Bool := c.isAlphanum || c = '_'

/-- `hasPre pat s` holds when `pat` is a prefix of `s`. -/
def hasPre : List Char → List Char → Bool
  | [], _ => true
  | _ :: _, [] => false
  | p :: ps, c :: cs => p = c && hasPre ps cs

/-- Python `pat in s`: substring containment. -/
def hasSub (s pat : List Char) : Bool :=
  match s with
  | [] => hasPre pat []
  | c :: cs => hasPre pat (c :: cs) || hasSub cs pat

/-- Split `s` at the first occurrence of `pat`, returning the text before
the occurrence and the text after it. -/
def splitAtSub (pat : List Char) : List Char → Option (List Char × List Char)
  | [] => if hasPre pat [] then some ([], []) else none
  | c :: cs =>
    if hasPre pat (c :: cs) then some ([], (c :: cs).drop pat.length)
    else
      match splitAtSub pat cs with
      | some (a, b) => some (c :: a, b)
      | none => none

/-- Drop a maximal run of leading whitespace (the deterministic behaviour
of `\s*` in the report-section patterns). -/
def dropSpaces : List Char → List Char
  | [] => []
  | c :: cs => if isPySpace c then dropSpaces cs else c :: cs

/-- Python `str.strip()`. -/
def stripChars (s : List Char) : List Char :=
  ((s.dropWhile isPySpace).reverse.dropWhile isPySpace).reverse

/-- A run of `n` repeated `=` characters (a section underline). -/
def eqRun (n : Nat) : List Char := List.replicate n '='

/-- Try to match `title` + `\s*` + `underline` + lazy group + `endPat`
at the head of `s`, returning the group on success.  Models one
position of the `re.search` loop for the section-extraction patterns of
`get_ai_response`. -/
def sectionAt (title underline endPat s : List Char) : Option (List Char) :=
  if hasPre title s then
    let r := dropSpaces (s.drop title.length)
    if hasPre underline r then (splitAtSub endPat (r.drop underline.length)).map Prod.fst
    else none
  else none

/-- `re.search` for `title\s*underline([\s\S]*?)endPat`: leftmost
position at which the whole pattern matches. -/
def sectionSearch (title underline endPat : List Char) : List Char → Option (List Char)
  | [] => sectionAt title underline endPat []
  | c :: cs =>
    match sectionAt title underline endPat (c :: cs) with
    | some g => some g
    | none => sectionSearch title underline endPat cs

/-- Match `title` + `\s*` + `underline` + `([\s\S]*)` at the head of `s`
(the RECOMMENDATIONS pattern, whose group runs to end of text). -/
def sectionAtEnd (title underline s : List Char) : Option (List Char) :=
  if hasPre title s then
    let r := dropSpaces (s.drop title.length)
    if hasPre underline r then some (r.drop underline.length) else none
  else none

/-- `re.search` for `title\s*underline([\s\S]*)`. -/
def sectionSearchEnd (title underline : List Char) : List Char → Option (List Char)
  | [] => sectionAtEnd title underline []
  | c :: cs =>
    match sectionAtEnd title underline (c :: cs) with
    | some g => some g
    | none => sectionSearchEnd title underline cs

/-- Try to match `pat` + `\s*` + `(\w+)` at the head of `s` (both already
lower-cased), returning the captured word. -/
def labelAt (pat s : List Char) : Option (List Char) :=
  if hasPre pat s then
    let r := dropSpaces (s.drop pat.length)
    let w := r.takeWhile isPyWord
    if w = [] then none else some w
  else none

/-- `re.search` scan for `labelAt`. -/
def labelSearch (pat : List Char) : List Char → Option (List Char)
  | [] => labelAt pat []
  | c :: cs =>
    match labelAt pat (c :: cs) with
    | some w => some w
    | none => labelSearch pat cs

/-- `re.search(label + ":\s*(\w+)", context, re.IGNORECASE)`: the
case-insensitive search is modelled by lower-casing both the pattern and
the subject; the returned word is therefore already lower-cased, which
matches the code's use `match.group(1).lower()`. -/
def findLabel (label context : List Char) : Option (List Char) :=
  labelSearch (lowerStr label ++ [':']) (lowerStr context)

/-- The lowered status extracted for a label, `"unknown"` when the search
fails (`app.py` lines 115-119). -/
def extract_status (label context : List Char) : List Char :=
  match findLabel label context with
  | some w => w
  | none => "unknown".data

/-- Python `int(...)` on a rational: truncation toward zero. -/
def pyInt (q : ℚ) : Int := q.num.tdiv (q.den : Int)

/-- The profit computation of the `"profit"` branch of `get_ai_response`
(`app.py` lines 113-139), with the float literals as exact rationals. -/
def profit_amount (context : List Char) : Int :=
  let h := extract_status "Overall Crop Health Status".data context
  let p := extract_status "Overall Pest Risk Level".data context
  let b1 : ℚ :=
    if h = "good".data then 1000 * (6 / 5 : ℚ)
    else if h = "moderate".data then 1000 * (9 / 10 : ℚ)
    else if h = "poor".data then 1000 * (3 / 5 : ℚ)
    else 1000
  let b2 : ℚ :=
    if p = "low".data then b1 * (11 / 10)
    else if p = "medium".data then b1 * (4 / 5)
    else if p = "high".data then b1 * (1 / 2)
    else b1
  pyInt b2

/-- The reply string of the profit branch. -/
def profit_reply (context : List Char) : String :=
  "Based on the analysis, the estimated potential profit is around $" ++
    toString (profit_amount context) ++
    " per unit area. This is an estimate based on crop health and pest risk."

/-- The `"crop health"` branch (`app.py` lines 141-143). -/
def crop_health_answer (context : List Char) : String :=
  match sectionSearch "CROP HEALTH ANALYSIS".data (eqRun 20) "SOIL CONDITION ANALYSIS".data context with
  | some g => String.mk (stripChars g)
  | none => "I couldn't find the Crop Health section in the analysis."

/-- The `"soil"` / `"moisture"` branch (`app.py` lines 145-147). -/
def soil_answer (context : List Char) : String :=
  match sectionSearch "SOIL CONDITION ANALYSIS".data (eqRun 23) "PEST RISK ANALYSIS".data context with
  | some g => String.mk (stripChars g)
  | none => "I couldn't find the Soil Condition section in the analysis."

/-- The `"pest"` branch (`app.py` lines 149-151). -/
def pest_answer (context : List Char) : String :=
  match sectionSearch "PEST RISK ANALYSIS".data (eqRun 18) "RECOMMENDATIONS".data context with
  | some g => String.mk (stripChars g)
  | none => "I couldn't find the Pest Risk section in the analysis."

/-- The `"recommendations"` branch (`app.py` lines 153-155). -/
def recommendations_answer (context : List Char) : String :=
  match sectionSearchEnd "RECOMMENDATIONS".data (eqRun 15) context with
  | some g => String.mk (stripChars g)
  | none => "I couldn't find any recommendations in the analysis."

/-- The no-match capability message (`app.py` line 157). -/
def capability_msg : String :=
  "I can answer questions about crop health, soil conditions, pest risk, and potential profit. What would you like to know?"

/-- The empty-context message of the profit question (`app.py` line 109). -/
def profit_precondition_msg : String :=
  "I can only calculate potential profit after an analysis has been run. Please run the analysis first."

/-- The generic empty-context message (`app.py` line 110). -/
def no_analysis_msg : String :=
  "I don't have any analysis results to work with yet. Please click 'Run Analysis' first."

/-- `get_ai_response(message, context)` from `app.py` lines 101-157. -/
def get_ai_response (message context : String) : String :=
  let msg := lowerStr message.data
  if context.data = [] then
    if hasSub msg "profit".data then profit_precondition_msg
    else no_analysis_msg
  else if hasSub msg "profit".data then profit_reply context.data
  else if hasSub msg "crop health".data then crop_health_answer context.data
  else if hasSub msg "soil".data || hasSub msg "moisture".data then soil_answer context.data
  else if hasSub msg "pest".data then pest_answer context.data
  else if hasSub msg "recommendations".data then recommendations_answer context.data
  else capability_msg

/-- The lines of the synthetic report of `generate_demo_results`
(`app.py` lines 216-281), parameterised by the report id
`int(time_time_safe())` and the formatted timestamp. -/
def demo_report_lines (rid : Nat) (now : String) : List String := [
  "",
  "=== AGRICULTURAL MONITORING RESULTS ===",
  "",
  "EXECUTIVE SUMMARY",
  "================",
  "Report ID: DEMO-" ++ toString rid,
  "Analysis Date: " ++ now,
  "Overall Assessment: Good (Score: 0.82)",
  "Risk Level: Medium",
  "",
  "CROP HEALTH ANALYSIS",
  "====================",
  "Overall Health: Good (Score: 0.78)",
  "Confidence: 0.85",
  "",
  "Vegetation Indices:",
  "  NDVI: 0.612 (Healthy)",
  "  GNDVI: 0.488 (Healthy)",
  "  NDRE: 0.212 (Moderate)",
  "  SAVI: 0.365 (Moderate)",
  "  EVI: 0.304 (Moderate)",
  "",
  "Health Distribution:",
  "  Healthy: 62.5%",
  "  Stressed: 25.0%",
  "  Unhealthy: 12.5%",
  "",
  "SOIL CONDITION ANALYSIS",
  "=======================",
  "Overall Health: Good (Score: 0.81)",
  "",
  "Soil Parameters:",
  "  Moisture: 0.18 (Adequate)",
  "  Temperature: 22.1°C (Optimal)",
  "  pH: 6.7 (Optimal)",
  "  EC: 1.35 dS/m (Normal)",
  "",
  "PEST RISK ANALYSIS",
  "==================",
  "Overall Risk: Medium (Score: 0.46)",
  "Confidence: 0.77",
  "",
  "Specific Pest Risks:",
  "  Aphids: 0.42 (Medium Risk)",
  "  Whiteflies: 0.28 (Low Risk)",
  "  Thrips: 0.31 (Medium Risk)",
  "  Spider Mites: 0.22 (Low Risk)",
  "  Caterpillars: 0.18 (Low Risk)",
  "",
  "RECOMMENDATIONS",
  "===============",
  "Crop Health Recommendations:",
  "• Maintain current irrigation; spot-check yellow areas.",
  "",
  "Soil Condition Recommendations:",
  "• If moisture < 0.2, apply 10–20 mm irrigation.",
  "",
  "Pest Management Recommendations:",
  "• Medium pest pressure; scout hotspots before spraying.",
  "",
  "Integrated Recommendations:",
  "• Prioritize scouting in medium/high-risk patches, then re-check indices in 3 days.",
  "",
  "=== END OF RESULTS ===",
  ""]

/-- The report text returned by `generate_demo_results` (the triple-quoted
f-string joined back together). -/
def generate_demo_results (rid : Nat) (now : String) : String :=
  String.intercalate "\n" (demo_report_lines rid now)

/-- The literal lines of the report before the two interpolated lines. -/
def report_pre : List String := [
  "",
  "=== AGRICULTURAL MONITORING RESULTS ===",
  "",
  "EXECUTIVE SUMMARY",
  "================"]

/-- The literal lines of the report after the two interpolated lines. -/
def report_post : List String := [
  "Overall Assessment: Good (Score: 0.82)",
  "Risk Level: Medium",
  "",
  "CROP HEALTH ANALYSIS",
  "====================",
  "Overall Health: Good (Score: 0.78)",
  "Confidence: 0.85",
  "",
  "Vegetation Indices:",
  "  NDVI: 0.612 (Healthy)",
  "  GNDVI: 0.488 (Healthy)",
  "  NDRE: 0.212 (Moderate)",
  "  SAVI: 0.365 (Moderate)",
  "  EVI: 0.304 (Moderate)",
  "",
  "Health Distribution:",
  "  Healthy: 62.5%",
  "  Stressed: 25.0%",
  "  Unhealthy: 12.5%",
  "",
  "SOIL CONDITION ANALYSIS",
  "=======================",
  "Overall Health: Good (Score: 0.81)",
  "",
  "Soil Parameters:",
  "  Moisture: 0.18 (Adequate)",
  "  Temperature: 22.1°C (Optimal)",
  "  pH: 6.7 (Optimal)",
  "  EC: 1.35 dS/m (Normal)",
  "",
  "PEST RISK ANALYSIS",
  "==================",
  "Overall Risk: Medium (Score: 0.46)",
  "Confidence: 0.77",
  "",
  "Specific Pest Risks:",
  "  Aphids: 0.42 (Medium Risk)",
  "  Whiteflies: 0.28 (Low Risk)",
  "  Thrips: 0.31 (Medium Risk)",
  "  Spider Mites: 0.22 (Low Risk)",
  "  Caterpillars: 0.18 (Low Risk)",
  "",
  "RECOMMENDATIONS",
  "===============",
  "Crop Health Recommendations:",
  "• Maintain current irrigation; spot-check yellow areas.",
  "",
  "Soil Condition Recommendations:",
  "• If moisture < 0.2, apply 10–20 mm irrigation.",
  "",
  "Pest Management Recommendations:",
  "• Medium pest pressure; scout hotspots before spraying.",
  "",
  "Integrated Recommendations:",
  "• Prioritize scouting in medium/high-risk patches, then re-check indices in 3 days.",
  "",
  "=== END OF RESULTS ===",
  ""]

/-- The environment and process behaviour consumed by `run_matlab`:
`DEMO_MODE == '1'`, `STRICT_MATLAB == '1'`, `MATLAB_CMD`, whether
`shutil.which` resolves the command, and the captured subprocess
streams and exit status. -/
structure OrchConfig where
  demo_mode : Bool
  strict_matlab : Bool
  matlab_cmd : String
  which_ok : Bool
  proc_stdout : String
  proc_stderr : String
  returncode : Int

/-- The JSON envelope returned by `run_matlab`: a result with output,
image URLs and a mode, or an error with details. -/
inductive RunOutcome where
  | ok (output : String) (images : List String) (mode : String)
  | err (error : String) (details : String)
deriving DecidableEq

/-- The `mode` field of a result envelope, `none` on an error envelope. -/
def RunOutcome.mode_of : RunOutcome → Option String
  | .ok _ _ m => some m
  | .err _ _ => none

/-- Whether the envelope is an error envelope. -/
def RunOutcome.is_err : RunOutcome → Bool
  | .ok _ _ _ => false
  | .err _ _ => true

/-- The `output` field of a result envelope. -/
def RunOutcome.output_of : RunOutcome → Option String
  | .ok o _ _ => some o
  | .err _ _ => none

/-- `[f'/results/{f}' for f in os.listdir(...) if f.endswith('.png')]`. -/
def image_urls (files : List String) : List String :=
  (files.filter (fun f => f.endsWith ".png")).map (fun f => "/results/" ++ f)

/-- The explanatory prefix of the unresolvable-command fallback
(`app.py` lines 53-54). -/
def not_found_demo_msg : String :=
  "MATLAB not found on PATH; running in DEMO mode. Set DEMO_MODE=0 and ensure MATLAB_CMD points to a valid MATLAB binary to run full analysis.\n\n"

/-- The explanatory prefix of the non-zero-exit fallback (`app.py` line 68). -/
def fail_demo_msg : String :=
  "MATLAB command failed or not found; running in DEMO mode instead. Error details:\n"

/-- `run_matlab` (`app.py` lines 31-85): the orchestration decision
procedure, with the filesystem listing and the synthetic-report
parameters passed in explicitly. -/
def run_matlab (cfg : OrchConfig) (rid : Nat) (now : String) (files : List String) : RunOutcome :=
  if cfg.demo_mode then
    .ok (generate_demo_results rid now) (image_urls files) "demo"
  else if cfg.which_ok = false ∧ cfg.strict_matlab = false then
    .ok (not_found_demo_msg ++ generate_demo_results rid now) (image_urls files) "demo"
  else
    let stderr := cfg.proc_stdout ++ cfg.proc_stderr
    if cfg.returncode ≠ 0 then
      if ((hasSub (lowerStr stderr.data) "not found".data && hasSub (lowerStr stderr.data) "matlab".data) || cfg.returncode = 127) ∧ cfg.strict_matlab = false then
        .ok (fail_demo_msg ++ stderr ++ "\n\n" ++ generate_demo_results rid now) (image_urls files) "demo"
      else
        .err "MATLAB script execution failed." stderr
    else
      .ok cfg.proc_stdout (image_urls files) "matlab"

/-- Clamp to `[0,1]` (`app.py` lines 306-308). -/
def clamp01 (x : ℚ) : ℚ := max 0 (min 1 x)

/-- The pre-clamp `(r, g, b)` assignment of `jet_rgb` (`app.py` lines
298-305) over exact rationals. -/
def jet_raw (v : ℚ) : ℚ × ℚ × ℚ :=
  if v < 1 / 4 then ((0 : ℚ), 4 * v, (1 : ℚ))
  else if v < 1 / 2 then ((0 : ℚ), 1, 1 - 4 * (v - 1 / 4))
  else if v < 3 / 4 then (4 * (v - 1 / 2), (1 : ℚ), (0 : ℚ))
  else ((1 : ℚ), 1 - 4 * (v - 3 / 4), (0 : ℚ))

/-- `jet_rgb` (`app.py` lines 296-309) over exact rationals: the four
breakpoints and slopes are dyadic, so the branch structure is the same
as with Python floats. -/
def jet_rgb (v : ℚ) : ℚ × ℚ × ℚ :=
  (clamp01 (jet_raw v).1, clamp01 (jet_raw v).2.1, clamp01 (jet_raw v).2.2)

/-- All three channels of a colour triple lie in `[0, 1]`. -/
def UnitTriple (t : ℚ × ℚ × ℚ) : Prop :=
  0 ≤ t.1 ∧ t.1 ≤ 1 ∧ 0 ≤ t.2.1 ∧ t.2.1 ≤ 1 ∧ 0 ≤ t.2.2 ∧ t.2.2 ≤ 1

/-- The four-segment piecewise formula of the claim, each channel
clamped to `[0, 1]`. -/
def JetSegSpec (v : ℚ) : Prop :=
  (v < 1 / 4 → jet_rgb v = (clamp01 0, clamp01 (4 * v), clamp01 1)) ∧
  (1 / 4 ≤ v → v < 1 / 2 → jet_rgb v = (clamp01 0, clamp01 1, clamp01 (1 - 4 * (v - 1 / 4)))) ∧
  (1 / 2 ≤ v → v < 3 / 4 → jet_rgb v = (clamp01 (4 * (v - 1 / 2)), clamp01 1, clamp01 0)) ∧
  (3 / 4 ≤ v → jet_rgb v = (clamp01 1, clamp01 (1 - 4 * (v - 3 / 4)), clamp01 0))

/-- The formulas of adjacent segments agree at the three breakpoints. -/
def JetBreakAgreement : Prop :=
  ((clamp01 0, clamp01 (4 * (1 / 4 : ℚ)), clamp01 1) =
    (clamp01 0, clamp01 1, clamp01 (1 - 4 * ((1 / 4 : ℚ) - 1 / 4)))) ∧
  ((clamp01 0, clamp01 1, clamp01 (1 - 4 * ((1 / 2 : ℚ) - 1 / 4))) =
    (clamp01 (4 * ((1 / 2 : ℚ) - 1 / 2)), clamp01 1, clamp01 0)) ∧
  ((clamp01 (4 * ((3 / 4 : ℚ) - 1 / 2)), clamp01 1, clamp01 0) =
    (clamp01 1, clamp01 (1 - 4 * ((3 / 4 : ℚ) - 3 / 4)), clamp01 0))

/-- C3's health multiplier, read off the claim: 1.2, 0.9, 0.6 by extracted
status and 1.0 when the label is missing or the status unrecognised. -/
def claim_health_mult (context : List Char) : ℚ :=
  match findLabel "Overall Crop Health Status".data context with
  | some w =>
    if w = "good".data then 6 / 5
    else if w = "moderate".data then 9 / 10
    else if w = "poor".data then 3 / 5
    else 1
  | none => 1

/-- C3's pest multiplier, read off the claim: 1.1, 0.8, 0.5 by extracted
level and 1.0 when the label is missing or the level unrecognised. -/
def claim_pest_mult (context : List Char) : ℚ :=
  match findLabel "Overall Pest Risk Level".data context with
  | some w =>
    if w = "low".data then 11 / 10
    else if w = "medium".data then 4 / 5
    else if w = "high".data then 1 / 2
    else 1
  | none => 1

set_option maxRecDepth 10000

/-! ## Helper lemmas -/

theorem string_eq_empty_of_data {s : String} (h : s.data = []) : s = "" := by
  cases s with
  | mk d => subst h; rfl

theorem clamp01_nonneg (x : ℚ) : 0 ≤ clamp01 x := le_max_left 0 _

theorem clamp01_le_one (x : ℚ) : clamp01 x ≤ 1 :=
  max_le (by norm_num) (min_le_left 1 x)

/-! ## C9 -/

/-- C9: with an empty report context, `get_ai_response` returns the fixed
"run the analysis first" message when the lower-cased question contains
"profit" and the fixed generic "no analysis yet" message otherwise, and
the two messages differ; no section extraction or profit computation
feeds the result, which is one of two fixed literals. -/
theorem c9_empty_context (message : String) :
    get_ai_response message "" =
      (if hasSub (lowerStr message.data) "profit".data then profit_precondition_msg
       else no_analysis_msg) ∧
    profit_precondition_msg ≠ no_analysis_msg := by
  constructor
  · unfold get_ai_response
    rw [if_pos rfl]
  · decide

/-! ## C6 -/

/-- C6: on `[0, 1]` the palette mapper returns the clamped four-segment
piecewise-linear jet value, all channels lie in `[0, 1]`, the value at 0
is pure blue `(0,0,1)`, the value at 1 is pure red `(1,0,0)`, and the
adjacent segment formulas agree at the breakpoints 1/4, 1/2, 3/4. -/
theorem c6_jet_rgb (v : ℚ) (h0 : 0 ≤ v) (h1 : v ≤ 1) :
    UnitTriple (jet_rgb v) ∧ JetSegSpec v ∧
    jet_rgb 0 = (0, 0, 1) ∧ jet_rgb 1 = (1, 0, 0) ∧ JetBreakAgreement := by
  refine ⟨⟨clamp01_nonneg _, clamp01_le_one _, clamp01_nonneg _, clamp01_le_one _,
      clamp01_nonneg _, clamp01_le_one _⟩, ⟨?_, ?_, ?_, ?_⟩,
    by norm_num [jet_rgb, jet_raw, clamp01, min_def, max_def],
    by norm_num [jet_rgb, jet_raw, clamp01, min_def, max_def],
    by norm_num [JetBreakAgreement, clamp01, min_def, max_def]⟩
  · intro hv
    have hr : jet_raw v = ((0 : ℚ), 4 * v, (1 : ℚ)) := by
      unfold jet_raw; rw [if_pos hv]
    unfold jet_rgb; rw [hr]
  · intro ha hb
    have hr : jet_raw v = ((0 : ℚ), 1, 1 - 4 * (v - 1 / 4)) := by
      unfold jet_raw; rw [if_neg (not_lt.mpr ha), if_pos hb]
    unfold jet_rgb; rw [hr]
  · intro ha hb
    have hr : jet_raw v = (4 * (v - 1 / 2), (1 : ℚ), (0 : ℚ)) := by
      unfold jet_raw
      rw [if_neg (not_lt.mpr (le_trans (by norm_num) ha)), if_neg (not_lt.mpr ha), if_pos hb]
    unfold jet_rgb; rw [hr]
  · intro ha
    have hr : jet_raw v = ((1 : ℚ), 1 - 4 * (v - 3 / 4), (0 : ℚ)) := by
      unfold jet_raw
      rw [if_neg (not_lt.mpr (le_trans (by norm_num) ha)),
        if_neg (not_lt.mpr (le_trans (by norm_num) ha)), if_neg (not_lt.mpr ha)]
    unfold jet_rgb; rw [hr]

/-- Witness for C6 at `v = 1/3`. -/
theorem c6_jet_rgb_witness :
    UnitTriple (jet_rgb (1 / 3)) ∧ JetSegSpec (1 / 3) ∧
    jet_rgb 0 = (0, 0, 1) ∧ jet_rgb 1 = (1, 0, 0) ∧ JetBreakAgreement :=
  c6_jet_rgb (1 / 3) (by norm_num) (by norm_num)

/-! ## C3 -/

theorem health_factor_eq (context : List Char) :
    (if extract_status "Overall Crop Health Status".data context = "good".data then 1000 * (6 / 5 : ℚ)
     else if extract_status "Overall Crop Health Status".data context = "moderate".data then 1000 * (9 / 10 : ℚ)
     else if extract_status "Overall Crop Health Status".data context = "poor".data then 1000 * (3 / 5 : ℚ)
     else 1000) = 1000 * claim_health_mult context := by
  unfold claim_health_mult extract_status
  rcases h : findLabel "Overall Crop Health Status".data context with _ | w
  · simp only [h]
    rw [if_neg (by decide), if_neg (by decide), if_neg (by decide), mul_one]
  · simp only [h]
    split_ifs <;> ring

theorem pest_factor_eq (context : List Char) (b1 : ℚ) :
    (if extract_status "Overall Pest Risk Level".data context = "low".data then b1 * (11 / 10)
     else if extract_status "Overall Pest Risk Level".data context = "medium".data then b1 * (4 / 5)
     else if extract_status "Overall Pest Risk Level".data context = "high".data then b1 * (1 / 2)
     else b1) = b1 * claim_pest_mult context := by
  unfold claim_pest_mult extract_status
  rcases h : findLabel "Overall Pest Risk Level".data context with _ | w
  · simp only [h]
    rw [if_neg (by decide), if_neg (by decide), if_neg (by decide), mul_one]
  · simp only [h]
    split_ifs <;> ring

/-- C3: for every report context the profit amount equals
`int(1000 * healthMult * pestMult)` with the claim's multipliers, and a
report containing `Overall Crop Health Status: Good` and
`Overall Pest Risk Level: Low` yields the $1320 estimate. -/
theorem c3_profit_rule :
    (∀ context : String,
      profit_amount context.data =
        pyInt (1000 * claim_health_mult context.data * claim_pest_mult context.data)) ∧
    get_ai_response "What is the expected profit?"
        "Overall Crop Health Status: Good\nOverall Pest Risk Level: Low" =
      "Based on the analysis, the estimated potential profit is around $1320 per unit area. This is an estimate based on crop health and pest risk." := by
  constructor
  · intro context
    show pyInt _ = _
    rw [health_factor_eq, pest_factor_eq]
  · have hh : findLabel "Overall Crop Health Status".data
        "Overall Crop Health Status: Good\nOverall Pest Risk Level: Low".data = some "good".data := by
      decide
    have hp : findLabel "Overall Pest Risk Level".data
        "Overall Crop Health Status: Good\nOverall Pest Risk Level: Low".data = some "low".data := by
      decide
    have hamount : profit_amount
        "Overall Crop Health Status: Good\nOverall Pest Risk Level: Low".data = 1320 := by
      unfold profit_amount extract_status
      simp only [hh, hp, if_pos rfl]
      norm_num [pyInt]
    unfold get_ai_response
    rw [if_neg (by decide), if_pos (by decide)]
    unfold profit_reply
    rw [hamount]
    decide

/-! ## C4 -/

/-- Counterexample to C4 as stated: with the demo-forced flag AND the
strict flag both set and the engine command unresolvable, `run_matlab`
returns a demo-mode result and no error envelope, because the
demo-forced check is evaluated first; this contradicts the claim's
unconditional "strict and unresolvable implies error envelope". -/
theorem c4_counterexample :
    (run_matlab ⟨true, true, "matlab", false, "", "", 127⟩ 0 "ts" []).mode_of = some "demo" ∧
    (run_matlab ⟨true, true, "matlab", false, "", "", 127⟩ 0 "ts" []).is_err = false := by
  exact ⟨rfl, rfl⟩

/-- C4 amended: demo-forced always yields a demo-mode result; and when
demo-forced is NOT set, the strict flag is set and the engine command is
not resolvable (so the spawned invocation exits non-zero), the
orchestrator returns the error envelope carrying the captured diagnostic
text and never a demo-mode result. -/
theorem c4_orchestrator (cfg : OrchConfig) (rid : Nat) (now : String) (files : List String) :
    (cfg.demo_mode = true → (run_matlab cfg rid now files).mode_of = some "demo") ∧
    (cfg.demo_mode = false → cfg.strict_matlab = true → cfg.which_ok = false →
      cfg.returncode ≠ 0 →
      run_matlab cfg rid now files =
        .err "MATLAB script execution failed." (cfg.proc_stdout ++ cfg.proc_stderr) ∧
      (run_matlab cfg rid now files).is_err = true ∧
      (run_matlab cfg rid now files).mode_of ≠ some "demo") := by
  constructor
  · intro hd
    unfold run_matlab
    rw [if_pos hd]
    rfl
  · intro hd hs hw hr
    have hmain : run_matlab cfg rid now files =
        .err "MATLAB script execution failed." (cfg.proc_stdout ++ cfg.proc_stderr) := by
      unfold run_matlab
      rw [if_neg (by simp [hd]), if_neg (by simp [hs]), if_pos hr, if_neg (by simp [hs])]
    exact ⟨hmain, by rw [hmain]; rfl, by rw [hmain]; exact fun h => Option.noConfusion h⟩

/-- Witness for C4 (amended) on both branches: a demo-forced
configuration and a strict configuration with an unresolvable command. -/
theorem c4_orchestrator_witness :
    (run_matlab ⟨true, false, "matlab", true, "", "", 0⟩ 0 "ts" []).mode_of = some "demo" ∧
    run_matlab ⟨false, true, "matlab", false, "", "sh: matlab: not found", 127⟩ 0 "ts" [] =
      .err "MATLAB script execution failed." ("" ++ "sh: matlab: not found") :=
  ⟨(c4_orchestrator ⟨true, false, "matlab", true, "", "", 0⟩ 0 "ts" []).1 rfl,
   ((c4_orchestrator ⟨false, true, "matlab", false, "", "sh: matlab: not found", 127⟩ 0 "ts" []).2
      rfl rfl rfl (by decide)).1⟩

/-! ## C5 -/

/-- Counterexample to C5 as stated: with `MATLAB_CMD = "octave"`, strict
unset, exit code 1 and combined output `"/bin/sh: 1: octave: not found"`,
the claim's fallback condition holds (output contains "not found"
together with the configured engine command name, strict not set), yet
`run_matlab` returns the error envelope and not a demo fallback — the
code greps for the literal `'matlab'`, not for the configured name. -/
theorem c5_counterexample :
    (let cfg : OrchConfig := ⟨false, false, "octave", true, "", "/bin/sh: 1: octave: not found\n", 1⟩
     hasSub (lowerStr (cfg.proc_stdout ++ cfg.proc_stderr).data) "not found".data = true ∧
     hasSub (lowerStr (cfg.proc_stdout ++ cfg.proc_stderr).data) (lowerStr cfg.matlab_cmd.data) = true ∧
     cfg.strict_matlab = false ∧ cfg.returncode ≠ 0 ∧
     run_matlab cfg 0 "ts" [] =
       .err "MATLAB script execution failed." ("" ++ "/bin/sh: 1: octave: not found\n") ∧
     (run_matlab cfg 0 "ts" []).mode_of ≠ some "demo") := by
  refine ⟨by decide, by decide, rfl, by decide, by decide, by decide⟩

/-- C5 amended: on a non-zero exit the orchestrator falls back to a
demo-mode result, prefixing the output with the captured diagnostic
text, exactly when strict mode is not set AND either the captured
combined output contains "not found" together with the literal text
"matlab" (not the configured command name) or the exit code is 127; in
every other non-zero-exit case it returns the error envelope carrying
the captured diagnostic text. -/
theorem c5_nonzero_exit (cfg : OrchConfig) (rid : Nat) (now : String) (files : List String)
    (hd : cfg.demo_mode = false)
    (hreach : ¬(cfg.which_ok = false ∧ cfg.strict_matlab = false))
    (hr : cfg.returncode ≠ 0) :
    ((run_matlab cfg rid now files).mode_of = some "demo" ↔
      cfg.strict_matlab = false ∧
        ((hasSub (lowerStr (cfg.proc_stdout ++ cfg.proc_stderr).data) "not found".data = true ∧
          hasSub (lowerStr (cfg.proc_stdout ++ cfg.proc_stderr).data) "matlab".data = true) ∨
          cfg.returncode = 127)) ∧
    (cfg.strict_matlab = false →
      ((hasSub (lowerStr (cfg.proc_stdout ++ cfg.proc_stderr).data) "not found".data &&
        hasSub (lowerStr (cfg.proc_stdout ++ cfg.proc_stderr).data) "matlab".data) ||
        cfg.returncode = 127) = true →
      run_matlab cfg rid now files =
        .ok (fail_demo_msg ++ (cfg.proc_stdout ++ cfg.proc_stderr) ++ "\n\n" ++
              generate_demo_results rid now)
          (image_urls files) "demo") ∧
    (¬(cfg.strict_matlab = false ∧
        ((hasSub (lowerStr (cfg.proc_stdout ++ cfg.proc_stderr).data) "not found".data = true ∧
          hasSub (lowerStr (cfg.proc_stdout ++ cfg.proc_stderr).data) "matlab".data = true) ∨
          cfg.returncode = 127)) →
      run_matlab cfg rid now files =
        .err "MATLAB script execution failed." (cfg.proc_stdout ++ cfg.proc_stderr)) := by
  have hbody : run_matlab cfg rid now files =
      (if ((hasSub (lowerStr (cfg.proc_stdout ++ cfg.proc_stderr).data) "not found".data &&
            hasSub (lowerStr (cfg.proc_stdout ++ cfg.proc_stderr).data) "matlab".data) ||
            cfg.returncode = 127) ∧ cfg.strict_matlab = false then
        .ok (fail_demo_msg ++ (cfg.proc_stdout ++ cfg.proc_stderr) ++ "\n\n" ++
              generate_demo_results rid now)
          (image_urls files) "demo"
      else .err "MATLAB script execution failed." (cfg.proc_stdout ++ cfg.proc_stderr)) := by
    unfold run_matlab
    rw [if_neg (by simp [hd]), if_neg hreach, if_pos hr]
  refine ⟨?_, ?_, ?_⟩
  · rw [hbody]
    constructor
    · intro hmode
      by_cases hcond : ((hasSub (lowerStr (cfg.proc_stdout ++ cfg.proc_stderr).data) "not found".data &&
          hasSub (lowerStr (cfg.proc_stdout ++ cfg.proc_stderr).data) "matlab".data) ||
          cfg.returncode = 127) ∧ cfg.strict_matlab = false
      · refine ⟨hcond.2, ?_⟩
        rcases Bool.or_eq_true _ _ ▸ hcond.1 with h | h
        · exact Or.inl (Bool.and_eq_true _ _ ▸ h)
        · exact Or.inr (of_decide_eq_true h)
      · rw [if_neg hcond] at hmode
        exact absurd hmode (by intro h; exact Option.noConfusion h)
    · intro ⟨hs, hor⟩
      have hcond : ((hasSub (lowerStr (cfg.proc_stdout ++ cfg.proc_stderr).data) "not found".data &&
          hasSub (lowerStr (cfg.proc_stdout ++ cfg.proc_stderr).data) "matlab".data) ||
          cfg.returncode = 127) ∧ cfg.strict_matlab = false := by
        refine ⟨?_, hs⟩
        rcases hor with ⟨h1, h2⟩ | h
        · exact (Bool.or_eq_true _ _).symm ▸
            (Or.inl ((Bool.and_eq_true _ _).symm ▸ (⟨h1, h2⟩ : _ ∧ _)) : _ ∨ _)
        · exact (Bool.or_eq_true _ _).symm ▸ (Or.inr (decide_eq_true h) : _ ∨ _)
      rw [if_pos hcond]
      rfl
  · intro hs hor
    rw [hbody, if_pos ⟨hor, hs⟩]
  · intro hneg
    rw [hbody, if_neg]
    intro ⟨horb, hs⟩
    apply hneg
    refine ⟨hs, ?_⟩
    rcases Bool.or_eq_true _ _ ▸ horb with h | h
    · exact Or.inl (Bool.and_eq_true _ _ ▸ h)
    · exact Or.inr (of_decide_eq_true h)

/-- Witness for C5 (amended): strict unset, exit code 1, output
containing "not found" and "matlab" — the fallback branch fires. -/
theorem c5_nonzero_exit_witness :
    run_matlab ⟨false, false, "matlab", true, "", "/bin/sh: 1: matlab: not found\n", 1⟩ 0 "ts" [] =
      .ok (fail_demo_msg ++ ("" ++ "/bin/sh: 1: matlab: not found\n") ++ "\n\n" ++
            generate_demo_results 0 "ts")
        (image_urls []) "demo" :=
  ((c5_nonzero_exit ⟨false, false, "matlab", true, "", "/bin/sh: 1: matlab: not found\n", 1⟩
      0 "ts" [] rfl (by simp) (by decide)).2.1 rfl (by decide))

/-! ## C10 -/

/-- C10: when demo is forced the returned report text is exactly the
synthetic generator's output with no prefix; the two fallback paths
prefix the generator's output with their explanatory texts; all three
paths carry mode "demo"; both explanatory prefixes contain the phrase
"running in DEMO mode" while a generated report itself does not. -/
theorem c10_demo_paths (cfg : OrchConfig) (rid : Nat) (now : String) (files : List String) :
    (cfg.demo_mode = true →
      run_matlab cfg rid now files =
        .ok (generate_demo_results rid now) (image_urls files) "demo") ∧
    (cfg.demo_mode = false → cfg.which_ok = false → cfg.strict_matlab = false →
      run_matlab cfg rid now files =
        .ok (not_found_demo_msg ++ generate_demo_results rid now) (image_urls files) "demo") ∧
    (cfg.demo_mode = false → cfg.which_ok = true → cfg.strict_matlab = false →
      cfg.returncode ≠ 0 →
      ((hasSub (lowerStr (cfg.proc_stdout ++ cfg.proc_stderr).data) "not found".data &&
        hasSub (lowerStr (cfg.proc_stdout ++ cfg.proc_stderr).data) "matlab".data) ||
        cfg.returncode = 127) = true →
      run_matlab cfg rid now files =
        .ok (fail_demo_msg ++ (cfg.proc_stdout ++ cfg.proc_stderr) ++ "\n\n" ++
              generate_demo_results rid now)
          (image_urls files) "demo") ∧
    hasSub not_found_demo_msg.data "running in DEMO mode".data = true ∧
    hasSub fail_demo_msg.data "running in DEMO mode".data = true ∧
    hasSub (generate_demo_results 1760000000 "2025-10-12 05:00:00 UTC").data
      "running in DEMO mode".data = false := by
  refine ⟨?_, ?_, ?_, by decide, by decide, by decide⟩
  · intro hd
    unfold run_matlab
    rw [if_pos hd]
  · intro hd hw hs
    unfold run_matlab
    rw [if_neg (by simp [hd]), if_pos ⟨hw, hs⟩]
  · intro hd hw hs hr hcond
    unfold run_matlab
    rw [if_neg (by simp [hd]), if_neg (by simp [hw]), if_pos hr, if_pos ⟨hcond, hs⟩]

/-- Witness for C10 on all three demo-producing paths. -/
theorem c10_demo_paths_witness :
    run_matlab ⟨true, false, "matlab", true, "", "", 0⟩ 7 "t0" ["a.png"] =
      .ok (generate_demo_results 7 "t0") (image_urls ["a.png"]) "demo" ∧
    run_matlab ⟨false, false, "matlab", false, "", "", 0⟩ 7 "t0" [] =
      .ok (not_found_demo_msg ++ generate_demo_results 7 "t0") (image_urls []) "demo" ∧
    run_matlab ⟨false, false, "matlab", true, "", "boom", 127⟩ 7 "t0" [] =
      .ok (fail_demo_msg ++ ("" ++ "boom") ++ "\n\n" ++ generate_demo_results 7 "t0")
        (image_urls []) "demo" :=
  ⟨(c10_demo_paths ⟨true, false, "matlab", true, "", "", 0⟩ 7 "t0" ["a.png"]).1 rfl,
   (c10_demo_paths ⟨false, false, "matlab", false, "", "", 0⟩ 7 "t0" []).2.1 rfl rfl rfl,
   (c10_demo_paths ⟨false, false, "matlab", true, "", "boom", 127⟩ 7 "t0" []).2.2.1 rfl rfl rfl
     (by decide) (by decide)⟩

/-! ## C7 -/

/-- C7: with a non-empty report context `get_ai_response` lower-cases the
question and dispatches on the first matching predicate in the order
profit, crop health, soil-or-moisture, pest, recommendations; a question
containing both "profit" and "pest" takes only the profit path, and a
question matching no predicate gets the capability message. -/
theorem c7_dispatch (message context : String) (hne : context ≠ "") :
    (hasSub (lowerStr message.data) "profit".data = true →
      get_ai_response message context = profit_reply context.data) ∧
    (hasSub (lowerStr message.data) "profit".data = true →
      hasSub (lowerStr message.data) "pest".data = true →
      get_ai_response message context = profit_reply context.data) ∧
    (hasSub (lowerStr message.data) "profit".data = false →
      hasSub (lowerStr message.data) "crop health".data = true →
      get_ai_response message context = crop_health_answer context.data) ∧
    (hasSub (lowerStr message.data) "profit".data = false →
      hasSub (lowerStr message.data) "crop health".data = false →
      (hasSub (lowerStr message.data) "soil".data = true ∨
        hasSub (lowerStr message.data) "moisture".data = true) →
      get_ai_response message context = soil_answer context.data) ∧
    (hasSub (lowerStr message.data) "profit".data = false →
      hasSub (lowerStr message.data) "crop health".data = false →
      hasSub (lowerStr message.data) "soil".data = false →
      hasSub (lowerStr message.data) "moisture".data = false →
      hasSub (lowerStr message.data) "pest".data = true →
      get_ai_response message context = pest_answer context.data) ∧
    (hasSub (lowerStr message.data) "profit".data = false →
      hasSub (lowerStr message.data) "crop health".data = false →
      hasSub (lowerStr message.data) "soil".data = false →
      hasSub (lowerStr message.data) "moisture".data = false →
      hasSub (lowerStr message.data) "pest".data = false →
      hasSub (lowerStr message.data) "recommendations".data = true →
      get_ai_response message context = recommendations_answer context.data) ∧
    (hasSub (lowerStr message.data) "profit".data = false →
      hasSub (lowerStr message.data) "crop health".data = false →
      hasSub (lowerStr message.data) "soil".data = false →
      hasSub (lowerStr message.data) "moisture".data = false →
      hasSub (lowerStr message.data) "pest".data = false →
      hasSub (lowerStr message.data) "recommendations".data = false →
      get_ai_response message context = capability_msg) := by
  have hnil : ¬(context.data = []) := fun h => hne (string_eq_empty_of_data h)
  refine ⟨?_, ?_, ?_, ?_, ?_, ?_, ?_⟩
  · intro h1
    simp only [get_ai_response]
    rw [if_neg hnil, if_pos h1]
  · intro h1 _
    simp only [get_ai_response]
    rw [if_neg hnil, if_pos h1]
  · intro h1 h2
    simp only [get_ai_response]
    rw [if_neg hnil, if_neg (by simp [h1]), if_pos h2]
  · intro h1 h2 h3
    simp only [get_ai_response]
    rw [if_neg hnil, if_neg (by simp [h1]), if_neg (by simp [h2]),
      if_pos ((Bool.or_eq_true _ _).symm ▸ h3)]
  · intro h1 h2 h3 h4 h5
    simp only [get_ai_response]
    rw [if_neg hnil, if_neg (by simp [h1]), if_neg (by simp [h2]),
      if_neg (by simp [h3, h4]), if_pos h5]
  · intro h1 h2 h3 h4 h5 h6
    simp only [get_ai_response]
    rw [if_neg hnil, if_neg (by simp [h1]), if_neg (by simp [h2]),
      if_neg (by simp [h3, h4]), if_neg (by simp [h5]), if_pos h6]
  · intro h1 h2 h3 h4 h5 h6
    simp only [get_ai_response]
    rw [if_neg hnil, if_neg (by simp [h1]), if_neg (by simp [h2]),
      if_neg (by simp [h3, h4]), if_neg (by simp [h5]), if_neg (by simp [h6])]

/-- Witness for C7: a question containing both "profit" and "pest" takes
the profit path, and an unrelated question gets the capability message. -/
theorem c7_dispatch_witness :
    get_ai_response "Will pests hurt my profit?" "some analysis" =
      profit_reply "some analysis".data ∧
    get_ai_response "hello" "some analysis" = capability_msg :=
  ⟨((c7_dispatch "Will pests hurt my profit?" "some analysis" (by decide)).2.1
      (by decide) (by decide)),
   ((c7_dispatch "hello" "some analysis" (by decide)).2.2.2.2.2.2
      (by decide) (by decide) (by decide) (by decide) (by decide) (by decide))⟩

/-! ## C2 -/

theorem demo_report_decomp (rid : Nat) (now : String) :
    demo_report_lines rid now =
      report_pre ++ ("Report ID: DEMO-" ++ toString rid) ::
        ("Analysis Date: " ++ now) :: report_post := rfl

theorem report_id_line_take (s : String) :
    ("Report ID: DEMO-" ++ s).data.take 2 = ['R', 'e'] := by
  rw [String.data_append]; rfl

theorem analysis_date_line_take (s : String) :
    ("Analysis Date: " ++ s).data.take 2 = ['A', 'n'] := by
  rw [String.data_append]; rfl

theorem report_id_line_ne (s t : String) (h : t.data.take 2 ≠ ['R', 'e']) :
    "Report ID: DEMO-" ++ s ≠ t :=
  fun e => h (by rw [← e]; exact report_id_line_take s)

theorem analysis_date_line_ne (s t : String) (h : t.data.take 2 ≠ ['A', 'n']) :
    "Analysis Date: " ++ s ≠ t :=
  fun e => h (by rw [← e]; exact analysis_date_line_take s)

theorem report_count_eq (rid : Nat) (now : String) (t : String)
    (h1 : t.data.take 2 ≠ ['R', 'e']) (h2 : t.data.take 2 ≠ ['A', 'n']) :
    (demo_report_lines rid now).count t = report_pre.count t + report_post.count t := by
  rw [demo_report_decomp, List.count_append, List.count_cons, List.count_cons,
    if_neg (by simp only [beq_iff_eq]; exact analysis_date_line_ne now t h2),
    if_neg (by simp only [beq_iff_eq]; exact report_id_line_ne (toString rid) t h1)]
  omega

/-- Counterexample to C2 as stated: in the generated report the line
immediately following the `EXECUTIVE SUMMARY` title line is a run of 16
`=` characters, while the title is 17 characters long, so the underline
length does not equal the title length. -/
theorem c2_counterexample :
    (demo_report_lines 0 "ts").get? 3 = some "EXECUTIVE SUMMARY" ∧
    (demo_report_lines 0 "ts").get? 4 = some (String.mk (eqRun 16)) ∧
    (String.mk (eqRun 16)).length = 16 ∧
    ("EXECUTIVE SUMMARY" : String).length = 17 := by
  exact ⟨rfl, by decide, by decide, by decide⟩

/-- C2 amended: each of the five section titles occurs exactly once among
the report's lines, in the stated order, each immediately followed by a
line of repeated `=` characters; the underline length equals the title
length for the four later sections, but the `EXECUTIVE SUMMARY`
underline has 16 `=` against a 17-character title. -/
theorem c2_sections (rid : Nat) (now : String) :
    ((demo_report_lines rid now).get? 3 = some "EXECUTIVE SUMMARY" ∧
     (demo_report_lines rid now).get? 4 = some (String.mk (eqRun 16)) ∧
     (demo_report_lines rid now).get? 10 = some "CROP HEALTH ANALYSIS" ∧
     (demo_report_lines rid now).get? 11 = some (String.mk (eqRun 20)) ∧
     (demo_report_lines rid now).get? 27 = some "SOIL CONDITION ANALYSIS" ∧
     (demo_report_lines rid now).get? 28 = some (String.mk (eqRun 23)) ∧
     (demo_report_lines rid now).get? 37 = some "PEST RISK ANALYSIS" ∧
     (demo_report_lines rid now).get? 38 = some (String.mk (eqRun 18)) ∧
     (demo_report_lines rid now).get? 49 = some "RECOMMENDATIONS" ∧
     (demo_report_lines rid now).get? 50 = some (String.mk (eqRun 15))) ∧
    ((demo_report_lines rid now).count "EXECUTIVE SUMMARY" = 1 ∧
     (demo_report_lines rid now).count "CROP HEALTH ANALYSIS" = 1 ∧
     (demo_report_lines rid now).count "SOIL CONDITION ANALYSIS" = 1 ∧
     (demo_report_lines rid now).count "PEST RISK ANALYSIS" = 1 ∧
     (demo_report_lines rid now).count "RECOMMENDATIONS" = 1) ∧
    ((String.mk (eqRun 16)).length = 16 ∧ ("EXECUTIVE SUMMARY" : String).length = 17 ∧
     (String.mk (eqRun 20)).length = ("CROP HEALTH ANALYSIS" : String).length ∧
     (String.mk (eqRun 23)).length = ("SOIL CONDITION ANALYSIS" : String).length ∧
     (String.mk (eqRun 18)).length = ("PEST RISK ANALYSIS" : String).length ∧
     (String.mk (eqRun 15)).length = ("RECOMMENDATIONS" : String).length) := by
  refine ⟨⟨rfl, by rfl, rfl, by rfl, rfl, by rfl, rfl, by rfl, rfl, by rfl⟩,
    ⟨?_, ?_, ?_, ?_, ?_⟩,
    by decide, by decide, by decide, by decide, by decide, by decide⟩ <;>
  · rw [report_count_eq rid now _ (by decide) (by decide)]
    decide

/-! ## C8 -/

theorem hasPre_append_self (p r : List Char) : hasPre p (p ++ r) = true := by
  induction p with
  | nil => rfl
  | cons a as ih => simp [hasPre, ih]

theorem dropSpaces_ws_cons (ws : List Char) (d : Char) (r : List Char)
    (hws : ∀ c ∈ ws, isPySpace c = true) (hd : isPySpace d = false) :
    dropSpaces (ws ++ d :: r) = d :: r := by
  induction ws with
  | nil => simp [dropSpaces, hd]
  | cons a as ih =>
    have ha : isPySpace a = true := hws a (List.mem_cons_self a as)
    simp only [List.cons_append, dropSpaces, ha, if_true]
    exact ih (fun c hc => hws c (List.mem_cons_of_mem a hc))

theorem splitAtSub_first (q : Char) (qs mid post : List Char)
    (hmid : ∀ k, k < mid.length →
      hasPre (q :: qs) (mid.drop k ++ (q :: (qs ++ post))) = false) :
    splitAtSub (q :: qs) (mid ++ (q :: (qs ++ post))) = some (mid, post) := by
  induction mid with
  | nil =>
    simp only [List.nil_append]
    unfold splitAtSub
    have hp : hasPre (q :: qs) (q :: (qs ++ post)) = true := by
      simpa using hasPre_append_self (q :: qs) post
    rw [if_pos hp]
    simp only [List.length_cons, List.drop_succ_cons, List.drop_left]
  | cons c cs ih =>
    show splitAtSub (q :: qs) (c :: (cs ++ (q :: (qs ++ post)))) = some (c :: cs, post)
    have h0 : hasPre (q :: qs) (c :: (cs ++ (q :: (qs ++ post)))) = false := by
      have := hmid 0 (by simp)
      simpa using this
    unfold splitAtSub
    rw [if_neg (by simp [h0])]
    have hrec : splitAtSub (q :: qs) (cs ++ (q :: (qs ++ post))) = some (cs, post) :=
      ih (fun k hk => by
        have := hmid (k + 1) (by simpa using Nat.succ_lt_succ hk)
        simpa using this)
    rw [hrec]

theorem sectionAt_hit (title ws : List Char) (d : Char) (ur : List Char)
    (q : Char) (qs mid post : List Char)
    (hws : ∀ c ∈ ws, isPySpace c = true) (hd : isPySpace d = false)
    (hmid : ∀ k, k < mid.length →
      hasPre (q :: qs) (mid.drop k ++ (q :: (qs ++ post))) = false) :
    sectionAt title (d :: ur) (q :: qs)
      (title ++ (ws ++ (d :: (ur ++ (mid ++ (q :: (qs ++ post))))))) = some mid := by
  unfold sectionAt
  rw [if_pos (hasPre_append_self title _), List.drop_left,
    dropSpaces_ws_cons ws d _ hws hd]
  have hpre2 : hasPre (d :: ur) (d :: (ur ++ (mid ++ (q :: (qs ++ post))))) = true := by
    simpa using hasPre_append_self (d :: ur) (mid ++ (q :: (qs ++ post)))
  rw [if_pos hpre2]
  have hdrop : (d :: (ur ++ (mid ++ (q :: (qs ++ post))))).drop (d :: ur).length =
      mid ++ (q :: (qs ++ post)) := by
    simp only [List.length_cons, List.drop_succ_cons]
    exact List.drop_left ur _
  rw [hdrop, splitAtSub_first q qs mid post hmid]
  rfl

theorem hasPre_drop_of_not_hasSub (s pat : List Char) (h : hasSub s pat = false) :
    ∀ k, hasPre pat (s.drop k) = false := by
  induction s with
  | nil =>
    intro k
    simp only [List.drop_nil]
    simpa [hasSub] using h
  | cons c cs ih =>
    have h1 : hasPre pat (c :: cs) = false := by
      unfold hasSub at h
      cases hx : hasPre pat (c :: cs) <;> simp_all
    have h2 : hasSub cs pat = false := by
      unfold hasSub at h
      cases hx : hasSub cs pat <;> simp_all
    intro k
    cases k with
    | zero => exact h1
    | succ n => simpa using ih h2 n

theorem sectionSearch_none (title u e : List Char) (s : List Char)
    (h : ∀ k, hasPre title (s.drop k) = false) :
    sectionSearch title u e s = none := by
  induction s with
  | nil =>
    have h0 : hasPre title [] = false := by simpa using h 0
    unfold sectionSearch sectionAt
    rw [if_neg (by simp [h0])]
  | cons c cs ih =>
    have h0 : hasPre title (c :: cs) = false := by simpa using h 0
    have hat : sectionAt title u e (c :: cs) = none := by
      unfold sectionAt
      rw [if_neg (by simp [h0])]
    unfold sectionSearch
    rw [hat]
    exact ih (fun k => by simpa using h (k + 1))

theorem sectionSearch_append (title u e pre rest : List Char) (g : List Char)
    (hpre : ∀ k, k < pre.length → hasPre title (pre.drop k ++ rest) = false)
    (hhit : sectionAt title u e rest = some g) :
    sectionSearch title u e (pre ++ rest) = some g := by
  induction pre with
  | nil =>
    simp only [List.nil_append]
    cases rest with
    | nil => exact hhit
    | cons r rs =>
      unfold sectionSearch
      rw [hhit]
  | cons c cs ih =>
    show sectionSearch title u e (c :: (cs ++ rest)) = some g
    have h0 : hasPre title (c :: (cs ++ rest)) = false := by
      have := hpre 0 (by simp)
      simpa using this
    have hat : sectionAt title u e (c :: (cs ++ rest)) = none := by
      unfold sectionAt
      rw [if_neg (by simp [h0])]
    unfold sectionSearch
    rw [hat]
    exact ih (fun k hk => by
      have := hpre (k + 1) (by simpa using Nat.succ_lt_succ hk)
      simpa using this)

/-- C8: for a pest question (matching no earlier predicate) and a
non-empty report built around a well-formed `PEST RISK ANALYSIS` marker
(title, whitespace, 18-character `=` underline) whose body is followed
by the first later occurrence of `RECOMMENDATIONS`, the answer is the
trimmed text strictly between the two markers; and when the
`PEST RISK ANALYSIS` marker is absent from the report, the answer is the
fixed message naming the Pest Risk section as not found. -/
theorem c8_pest_section (message : String) (pre ws mid post : List Char)
    (hm1 : hasSub (lowerStr message.data) "pest".data = true)
    (hm2 : hasSub (lowerStr message.data) "profit".data = false)
    (hm3 : hasSub (lowerStr message.data) "crop health".data = false)
    (hm4 : hasSub (lowerStr message.data) "soil".data = false)
    (hm5 : hasSub (lowerStr message.data) "moisture".data = false)
    (hws : ∀ c ∈ ws, isPySpace c = true)
    (hpre : ∀ k, k < pre.length →
      hasPre "PEST RISK ANALYSIS".data
        (pre.drop k ++ ("PEST RISK ANALYSIS".data ++
          (ws ++ (eqRun 18 ++ (mid ++ ("RECOMMENDATIONS".data ++ post)))))) = false)
    (hmid : ∀ k, k < mid.length →
      hasPre "RECOMMENDATIONS".data
        (mid.drop k ++ ("RECOMMENDATIONS".data ++ post)) = false) :
    get_ai_response message
        (String.mk (pre ++ ("PEST RISK ANALYSIS".data ++
          (ws ++ (eqRun 18 ++ (mid ++ ("RECOMMENDATIONS".data ++ post))))))) =
      String.mk (stripChars mid) ∧
    (∀ ctx2 : String, ctx2 ≠ "" →
      hasSub ctx2.data "PEST RISK ANALYSIS".data = false →
      get_ai_response message ctx2 =
        "I couldn't find the Pest Risk section in the analysis.") := by
  constructor
  · have hnil : ¬((String.mk (pre ++ ("PEST RISK ANALYSIS".data ++
        (ws ++ (eqRun 18 ++ (mid ++ ("RECOMMENDATIONS".data ++ post))))))).data = []) := by
      intro h
      rcases List.append_eq_nil.mp h with ⟨_, h2⟩
      rcases List.append_eq_nil.mp h2 with ⟨h3, _⟩
      exact absurd h3 (by decide)
    have hhit : sectionAt "PEST RISK ANALYSIS".data (eqRun 18) "RECOMMENDATIONS".data
        ("PEST RISK ANALYSIS".data ++
          (ws ++ (eqRun 18 ++ (mid ++ ("RECOMMENDATIONS".data ++ post))))) = some mid :=
      sectionAt_hit "PEST RISK ANALYSIS".data ws '=' (eqRun 17) 'R' "ECOMMENDATIONS".data
        mid post hws (by decide) (fun k hk => hmid k hk)
    have hsearch : sectionSearch "PEST RISK ANALYSIS".data (eqRun 18) "RECOMMENDATIONS".data
        (pre ++ ("PEST RISK ANALYSIS".data ++
          (ws ++ (eqRun 18 ++ (mid ++ ("RECOMMENDATIONS".data ++ post)))))) = some mid :=
      sectionSearch_append _ _ _ pre _ mid (fun k hk => hpre k hk) hhit
    simp only [get_ai_response]
    rw [if_neg hnil, if_neg (by simp [hm2]), if_neg (by simp [hm3]),
      if_neg (by simp [hm4, hm5]), if_pos hm1]
    show pest_answer (pre ++ ("PEST RISK ANALYSIS".data ++
      (ws ++ (eqRun 18 ++ (mid ++ ("RECOMMENDATIONS".data ++ post)))))) = String.mk (stripChars mid)
    unfold pest_answer
    rw [hsearch]
  · intro ctx2 hne habs
    have hnil : ¬(ctx2.data = []) := fun h => hne (string_eq_empty_of_data h)
    simp only [get_ai_response]
    rw [if_neg hnil, if_neg (by simp [hm2]), if_neg (by simp [hm3]),
      if_neg (by simp [hm4, hm5]), if_pos hm1]
    unfold pest_answer
    rw [sectionSearch_none _ _ _ _ (hasPre_drop_of_not_hasSub ctx2.data _ habs)]

/-- Witness for C8 on a small concrete report and on a report without
the marker. -/
theorem c8_pest_section_witness :
    get_ai_response "What about pests?"
        (String.mk ("Intro\n".data ++ ("PEST RISK ANALYSIS".data ++
          ("\n".data ++ (eqRun 18 ++ ("\nOverall Risk: Low\n".data ++
            ("RECOMMENDATIONS".data ++ "\n===============\nDone".data))))))) =
      String.mk (stripChars "\nOverall Risk: Low\n".data) ∧
    get_ai_response "What about pests?" "no such section" =
      "I couldn't find the Pest Risk section in the analysis." := by
  have h := c8_pest_section "What about pests?" "Intro\n".data "\n".data
    "\nOverall Risk: Low\n".data "\n===============\nDone".data
    (by decide) (by decide) (by decide) (by decide) (by decide)
    (by decide) (by decide) (by decide)
  exact ⟨h.1, h.2 "no such section" (by decide) (by decide)⟩

/-! ## C1 -/

/-- Counterexample to C1: on a concrete generated report the
case-insensitive search for the profit rule's labels fails — the report
contains no `Overall Crop Health Status` and no `Overall Pest Risk
Level` line, and the modelled `re.search` returns no match for either
label. -/
theorem c1_counterexample :
    hasSub (lowerStr (generate_demo_results 1760000000 "2025-10-12 05:00:00 UTC").data)
      (lowerStr "Overall Crop Health Status".data) = false ∧
    hasSub (lowerStr (generate_demo_results 1760000000 "2025-10-12 05:00:00 UTC").data)
      (lowerStr "Overall Pest Risk Level".data) = false ∧
    findLabel "Overall Crop Health Status".data
      (generate_demo_results 1760000000 "2025-10-12 05:00:00 UTC").data = none ∧
    findLabel "Overall Pest Risk Level".data
      (generate_demo_results 1760000000 "2025-10-12 05:00:00 UTC").data = none := by
  refine ⟨by decide, by decide, by decide, by decide⟩

/-- C1 amended: the generated report's labelled overall metrics are
`Overall Health:` and `Overall Risk:`; the labels referenced by the
profit rule (`Overall Crop Health Status`, `Overall Pest Risk Level`)
are absent, both statuses extract as "unknown", and the profit answer
over a generated report is the neutral $1000 estimate. -/
theorem c1_report_labels :
    hasSub (generate_demo_results 1760000000 "2025-10-12 05:00:00 UTC").data
      "Overall Health:".data = true ∧
    hasSub (generate_demo_results 1760000000 "2025-10-12 05:00:00 UTC").data
      "Overall Risk:".data = true ∧
    extract_status "Overall Crop Health Status".data
      (generate_demo_results 1760000000 "2025-10-12 05:00:00 UTC").data = "unknown".data ∧
    extract_status "Overall Pest Risk Level".data
      (generate_demo_results 1760000000 "2025-10-12 05:00:00 UTC").data = "unknown".data ∧
    get_ai_response "What is the expected profit?"
        (generate_demo_results 1760000000 "2025-10-12 05:00:00 UTC") =
      "Based on the analysis, the estimated potential profit is around $1000 per unit area. This is an estimate based on crop health and pest risk." := by
  have h1 : findLabel "Overall Crop Health Status".data
      (generate_demo_results 1760000000 "2025-10-12 05:00:00 UTC").data = none := by decide
  have h2 : findLabel "Overall Pest Risk Level".data
      (generate_demo_results 1760000000 "2025-10-12 05:00:00 UTC").data = none := by decide
  have hamount : profit_amount
      (generate_demo_results 1760000000 "2025-10-12 05:00:00 UTC").data = 1000 := by
    unfold profit_amount extract_status
    simp only [h1, h2]
    rw [if_neg (by decide), if_neg (by decide), if_neg (by decide),
      if_neg (by decide), if_neg (by decide), if_neg (by decide)]
    norm_num [pyInt]
  refine ⟨by decide, by decide, ?_, ?_, ?_⟩
  · unfold extract_status
    rw [h1]
  · unfold extract_status
    rw [h2]
  · unfold get_ai_response
    rw [if_neg (by decide), if_pos (by decide)]
    unfold profit_reply
    rw [hamount]
    decide
